import Mathlib

/-!
Shallow embedding of the MultiBillForge server core: the data model of
`src/shared/schema.ts`, the flat-collection document store of
`src/server/storage.ts`, the authentication service of
`src/server/services/auth.ts`, the route middleware and handlers of
`src/server/routes.ts`, and the client-side form validation and report
aggregation of `src/client/src/...` and the unnamed client modals.

Numbers (`z.number()` fields such as prices and invoice totals) are
modelled as `ℚ`; identifiers, timestamps and other strings as `String`.
External collaborators are parameters: bcrypt comparison is a function
argument `cmp`, `randomUUID` is a supplied fresh-id argument, and
`new Date().toISOString()` is a supplied `now` argument.
-/

namespace MBF

/-- Permission row (`permissionSchema` in src/shared/schema.ts). -/
structure Permission where
  id : String
  roleId : String
  module : String
  canCreate : Bool
  canRead : Bool
  canUpdate : Bool
  canDelete : Bool
deriving DecidableEq, Repr

/-- Role row (`roleSchema`). `description` is optional in the schema. -/
structure Role where
  id : String
  name : String
  description : Option String
deriving DecidableEq, Repr

/-- Company row (`companySchema`). -/
structure Company where
  id : String
  name : String
  slug : String
  logoUrl : Option String
  address : Option String
  phone : Option String
  email : Option String
  website : Option String
  createdAt : String
  updatedAt : String
  isActive : Bool
deriving DecidableEq, Repr

/-- User row (`userSchema`). -/
structure User where
  id : String
  companyId : String
  roleId : String
  email : String
  password : String
  name : String
  isActive : Bool
  createdAt : String
  updatedAt : String
deriving DecidableEq, Repr

/-- Product row (`productSchema`); `price` and `taxRate` are `z.number()`. -/
structure Product where
  id : String
  companyId : String
  name : String
  description : Option String
  price : ℚ
  unit : Option String
  category : Option String
  taxRate : ℚ
  isActive : Bool
  createdAt : String
  updatedAt : String
deriving DecidableEq, Repr

/-- Customer row (`customerSchema`). -/
structure Customer where
  id : String
  companyId : String
  name : String
  email : String
  phone : Option String
  address : Option String
  taxId : Option String
  isActive : Bool
  createdAt : String
  updatedAt : String
deriving DecidableEq, Repr

/-- Invoice status enumeration (`z.enum(['pending','paid','overdue','cancelled'])`). -/
inductive InvStatus where
  | pending
  | paid
  | overdue
  | cancelled
deriving DecidableEq, Repr

/-- Invoice row (`invoiceSchema`). -/
structure Invoice where
  id : String
  companyId : String
  customerId : String
  invoiceNumber : String
  date : String
  dueDate : String
  subtotal : ℚ
  tax : ℚ
  total : ℚ
  status : InvStatus
  notes : Option String
  createdAt : String
  updatedAt : String
deriving DecidableEq, Repr

/-- Invoice item row (`invoiceItemSchema`). -/
structure InvoiceItem where
  id : String
  invoiceId : String
  productId : String
  description : String
  quantity : ℚ
  unitPrice : ℚ
  total : ℚ
deriving DecidableEq, Repr

/-- The flat JSON collections managed by `JSONStorage` (one list per file). -/
structure Store where
  companies : List Company
  users : List User
  roles : List Role
  permissions : List Permission
  products : List Product
  customers : List Customer
  invoices : List Invoice
  invoiceItems : List InvoiceItem
deriving DecidableEq, Repr

/-- `UserWithRole`: a user joined with role, company and the permission rows
of the user's role (shape returned by `JSONStorage.getUserWithRole`). -/
structure UserWithRole where
  base : User
  role : Role
  company : Company
  permissions : List Permission
deriving DecidableEq, Repr

/-- `JSONStorage.getUser`: find a user row by id. -/
def getUser (st : Store) (id : String) : Option User :=
  st.users.find? (fun u => u.id = id)

/-- `JSONStorage.getUserByEmail`: find a user row by exact email match. -/
def getUserByEmail (st : Store) (email : String) : Option User :=
  st.users.find? (fun u => u.email = email)

/-- `JSONStorage.getUserWithRole`: load a user and join role, company and the
permission rows filtered by the user's roleId; `none` when the user, the
role or the company is missing. -/
def getUserWithRole (st : Store) (id : String) : Option UserWithRole :=
  match getUser st id with
  | none => none
  | some u =>
    match st.roles.find? (fun r => r.id = u.roleId),
          st.companies.find? (fun c => c.id = u.companyId) with
    | some r, some c =>
      some ⟨u, r, c, st.permissions.filter (fun p => p.roleId = u.roleId)⟩
    | _, _ => none

/-- `JSONStorage.getUserByEmailWithRole`. -/
def getUserByEmailWithRole (st : Store) (email : String) : Option UserWithRole :=
  match getUserByEmail st email with
  | none => none
  | some u => getUserWithRole st u.id

/-- The four CRUD actions used as permission keys in `requirePermission`. -/
inductive PermAction where
  | create
  | read
  | update
  | delete
deriving DecidableEq, Repr

/-- Project the `canCreate`/`canRead`/`canUpdate`/`canDelete` flag named by
an action out of a Permission row (the `permission[action]` access). -/
def permFlag (p : Permission) : PermAction → Bool
  | .create => p.canCreate
  | .read => p.canRead
  | .update => p.canUpdate
  | .delete => p.canDelete

/-- `requirePermission(module, action)` middleware of src/server/routes.ts:
find the first permission row of the request user whose module matches;
deny (403) when there is none or its action flag is false. `true` means the
middleware calls `next()`. -/
def requirePermissionOk (perms : List Permission) (module : String)
    (action : PermAction) : Bool :=
  match perms.find? (fun p => p.module = module) with
  | none => false
  | some p => permFlag p action

/-- `hasPermission` of src/client/src/lib/auth.ts: same first-match lookup on
the client, with a `null` user denied. -/
def clientHasPermission (user : Option UserWithRole) (module : String)
    (action : PermAction) : Bool :=
  match user with
  | none => false
  | some u =>
    match u.permissions.find? (fun p => p.module = module) with
    | none => false
    | some p => permFlag p action

/-- JavaScript truthiness chain `a || b || c` over optional strings: an empty
string is falsy and falls through to the next operand. -/
def firstTruthy : List (Option String) → Option String
  | [] => none
  | none :: rest => firstTruthy rest
  | some s :: rest => if s = "" then firstTruthy rest else some s

/-- `requireCompanyScope` middleware of src/server/routes.ts: Super Admins
pass unconditionally; otherwise the first truthy companyId among
`req.params.companyId`, `req.body.companyId`, `req.query.companyId` must
equal the request user's companyId (absent means pass). `true` means the
middleware calls `next()`. -/
def requireCompanyScopeOk (user : UserWithRole)
    (paramsCompanyId bodyCompanyId queryCompanyId : Option String) : Bool :=
  if user.role.name = "Super Admin" then true
  else
    match firstTruthy [paramsCompanyId, bodyCompanyId, queryCompanyId] with
    | none => true
    | some cid => cid = user.base.companyId

/-- The JWT payload of src/server/services/auth.ts. -/
structure JWTPayload where
  userId : String
  companyId : String
  roleId : String
  email : String
deriving DecidableEq, Repr

/-- A signed session token: its payload plus the two facts `jwt.verify`
checks (signature validity and expiry within 24h of issuance). -/
structure Token where
  payload : JWTPayload
  sigOk : Bool
  expired : Bool
deriving DecidableEq, Repr

/-- `AuthService.generateToken`: the payload encodes userId, companyId,
roleId and email of the user at issuance time. -/
def generateToken (user : UserWithRole) : JWTPayload :=
  ⟨user.base.id, user.base.companyId, user.base.roleId, user.base.email⟩

/-- `AuthService.verifyToken`: `jwt.verify` succeeds exactly when the
signature is valid and the token is unexpired; it consults nothing else
(in particular not the document store, which it cannot even see). -/
def verifyToken (t : Token) : Option JWTPayload :=
  if t.sigOk ∧ ¬ t.expired then some t.payload else none

/-- Outcome of `POST /api/auth/login`: an error response with HTTP status
and message, or a 200 with a signed token and the user view. -/
inductive LoginResp where
  | err (status : Nat) (message : String)
  | ok (token : JWTPayload) (user : UserWithRole)
deriving DecidableEq, Repr

/-- The login handler of src/server/routes.ts (after `loginSchema.parse`):
lookup by email, bcrypt comparison (`cmp`), isActive check, then token
issuance. Absent user and password mismatch produce the same response. -/
def loginHandler (st : Store) (cmp : String → String → Bool)
    (email password : String) : LoginResp :=
  match getUserByEmailWithRole st email with
  | none => .err 401 "Invalid credentials"
  | some user =>
    if ¬ cmp password user.base.password then .err 401 "Invalid credentials"
    else if ¬ user.base.isActive then .err 401 "Account is inactive"
    else .ok (generateToken user) user

/-- `authMiddleware` of src/server/routes.ts: missing token 401, invalid or
expired token 401, then `getUserWithRole` against the CURRENT store — a user
absent from the store (or with a dangling role/company) is rejected, and the
request user carries the store's current role and permission rows. -/
def authMiddleware (st : Store) (tok : Option Token) :
    Except (Nat × String) UserWithRole :=
  match tok with
  | none => .error (401, "Authentication required")
  | some t =>
    match verifyToken t with
    | none => .error (401, "Invalid token")
    | some payload =>
      match getUserWithRole st payload.userId with
      | none => .error (401, "User not found")
      | some user => .ok user

/-- An HTTP response as the route handlers produce it: status code plus the
JSON `message` field (empty for bodies that are entity payloads). -/
structure HResp where
  status : Nat
  message : String
deriving DecidableEq, Repr

/-- Update the first list element satisfying `pred` (the
`findIndex` + in-place assignment idiom of JSONStorage); returns the updated
element and the new list, or `none` and the unchanged list. -/
def updateFirst (pred : α → Bool) (f : α → α) : List α → Option α × List α
  | [] => (none, [])
  | x :: xs =>
    if pred x then (some (f x), f x :: xs)
    else
      let r := updateFirst pred f xs
      (r.1, x :: r.2)

/-- `insertProductSchema.partial()` parse result: every insert field
optional; an optional source field parses to an optional optional. -/
structure ProductPatch where
  companyId : Option String
  name : Option String
  description : Option (Option String)
  price : Option ℚ
  unit : Option (Option String)
  category : Option (Option String)
  taxRate : Option ℚ
  isActive : Option Bool
deriving DecidableEq, Repr

/-- The spread `{...products[index], ...product, updatedAt: now}` for a
partial product update. -/
def applyProductPatch (old : Product) (p : ProductPatch) (now : String) : Product :=
  { old with
    companyId := p.companyId.getD old.companyId
    name := p.name.getD old.name
    description := p.description.getD old.description
    price := p.price.getD old.price
    unit := p.unit.getD old.unit
    category := p.category.getD old.category
    taxRate := p.taxRate.getD old.taxRate
    isActive := p.isActive.getD old.isActive
    updatedAt := now }

/-- `insertProductSchema` parse result (all insert fields present). -/
structure InsertProduct where
  companyId : String
  name : String
  description : Option String
  price : ℚ
  unit : Option String
  category : Option String
  taxRate : ℚ
  isActive : Bool
deriving DecidableEq, Repr

/-- `JSONStorage.createProduct`: append with a fresh id and timestamps. -/
def createProduct (st : Store) (freshId now : String) (p : InsertProduct) :
    Product × Store :=
  let newProduct : Product :=
    ⟨freshId, p.companyId, p.name, p.description, p.price, p.unit,
     p.category, p.taxRate, p.isActive, now, now⟩
  (newProduct, { st with products := st.products ++ [newProduct] })

/-- `JSONStorage.updateProduct`: merge the patch into the first row with the
given id; `none` when the id is absent. -/
def updateProduct (st : Store) (id : String) (p : ProductPatch) (now : String) :
    Option Product × Store :=
  let r := updateFirst (fun pr => pr.id = id) (fun pr => applyProductPatch pr p now)
    st.products
  (r.1, { st with products := r.2 })

/-- `insertCustomerSchema` parse result. -/
structure InsertCustomer where
  companyId : String
  name : String
  email : String
  phone : Option String
  address : Option String
  taxId : Option String
  isActive : Bool
deriving DecidableEq, Repr

/-- `JSONStorage.createCustomer`. -/
def createCustomer (st : Store) (freshId now : String) (c : InsertCustomer) :
    Customer × Store :=
  let newCustomer : Customer :=
    ⟨freshId, c.companyId, c.name, c.email, c.phone, c.address, c.taxId,
     c.isActive, now, now⟩
  (newCustomer, { st with customers := st.customers ++ [newCustomer] })

/-- `insertUserSchema` parse result. -/
structure InsertUser where
  companyId : String
  roleId : String
  email : String
  password : String
  name : String
  isActive : Bool
deriving DecidableEq, Repr

/-- `JSONStorage.createUser`. -/
def createUser (st : Store) (freshId now : String) (u : InsertUser) :
    User × Store :=
  let newUser : User :=
    ⟨freshId, u.companyId, u.roleId, u.email, u.password, u.name, u.isActive,
     now, now⟩
  (newUser, { st with users := st.users ++ [newUser] })

/-- `insertInvoiceSchema` parse result (subtotal, tax, total, status are
required fields supplied by the caller — the server computes none of them). -/
structure InsertInvoice where
  companyId : String
  customerId : String
  invoiceNumber : String
  date : String
  dueDate : String
  subtotal : ℚ
  tax : ℚ
  total : ℚ
  status : InvStatus
  notes : Option String
deriving DecidableEq, Repr

/-- `insertInvoiceItemSchema` parse result: plain typed fields, no bounds,
and `total` is whatever the caller sent. -/
structure InsertInvoiceItem where
  invoiceId : String
  productId : String
  description : String
  quantity : ℚ
  unitPrice : ℚ
  total : ℚ
deriving DecidableEq, Repr

/-- `JSONStorage.createInvoice`: append the invoice verbatim (plus id and
timestamps) and append each item verbatim with a fresh id and the new
invoice's id; no totals are computed or checked. -/
def createInvoice (st : Store) (freshId : String) (itemId : Nat → String)
    (now : String) (inv : InsertInvoice) (items : List InsertInvoiceItem) :
    Invoice × Store :=
  let newInvoice : Invoice :=
    ⟨freshId, inv.companyId, inv.customerId, inv.invoiceNumber, inv.date,
     inv.dueDate, inv.subtotal, inv.tax, inv.total, inv.status, inv.notes,
     now, now⟩
  let newItems : List InvoiceItem :=
    items.mapIdx (fun i it =>
      ⟨itemId i, newInvoice.id, it.productId, it.description, it.quantity,
       it.unitPrice, it.total⟩)
  (newInvoice,
   { st with
     invoices := st.invoices ++ [newInvoice]
     invoiceItems := st.invoiceItems ++ newItems })

/-- `insertInvoiceSchema.partial()` parse result. Note: the PUT body's
`items` key is not in the schema, so zod strips it — an invoice update never
touches item rows. -/
structure InvoicePatch where
  companyId : Option String
  customerId : Option String
  invoiceNumber : Option String
  date : Option String
  dueDate : Option String
  subtotal : Option ℚ
  tax : Option ℚ
  total : Option ℚ
  status : Option InvStatus
  notes : Option (Option String)
deriving DecidableEq, Repr

/-- The spread `{...invoices[index], ...invoice, updatedAt: now}`. -/
def applyInvoicePatch (old : Invoice) (p : InvoicePatch) (now : String) : Invoice :=
  { old with
    companyId := p.companyId.getD old.companyId
    customerId := p.customerId.getD old.customerId
    invoiceNumber := p.invoiceNumber.getD old.invoiceNumber
    date := p.date.getD old.date
    dueDate := p.dueDate.getD old.dueDate
    subtotal := p.subtotal.getD old.subtotal
    tax := p.tax.getD old.tax
    total := p.total.getD old.total
    status := p.status.getD old.status
    notes := p.notes.getD old.notes
    updatedAt := now }

/-- `JSONStorage.updateInvoice`. -/
def updateInvoice (st : Store) (id : String) (p : InvoicePatch) (now : String) :
    Option Invoice × Store :=
  let r := updateFirst (fun i => i.id = id) (fun i => applyInvoicePatch i p now)
    st.invoices
  (r.1, { st with invoices := r.2 })

/-- `JSONStorage.getProducts`: the list endpoint filters by companyId. -/
def getProducts (st : Store) (companyId : String) : List Product :=
  st.products.filter (fun p => p.companyId = companyId)

/-- `GET /api/products` after authentication: permission gate then the
company-filtered list. No scope middleware is attached to this route. -/
def productsGet (st : Store) (user : UserWithRole) : HResp × List Product :=
  if ¬ requirePermissionOk user.permissions "products" PermAction.read then
    (⟨403, "Insufficient permissions"⟩, [])
  else (⟨200, ""⟩, getProducts st user.base.companyId)

/-- `POST /api/products` after authentication: permission gate, overwrite
`companyId` with the caller's, persist. No scope middleware. -/
def productsPost (st : Store) (user : UserWithRole) (body : InsertProduct)
    (freshId now : String) : HResp × Store :=
  if ¬ requirePermissionOk user.permissions "products" PermAction.create then
    (⟨403, "Insufficient permissions"⟩, st)
  else
    let r := createProduct st freshId now { body with companyId := user.base.companyId }
    (⟨201, ""⟩, r.2)

/-- `PUT /api/products/:id` after authentication: permission gate then a
partial update by id. No scope middleware and no ownership check — the
target row's companyId is never compared with the caller's. -/
def productsPut (st : Store) (user : UserWithRole) (id : String)
    (patch : ProductPatch) (now : String) : HResp × Store :=
  if ¬ requirePermissionOk user.permissions "products" PermAction.update then
    (⟨403, "Insufficient permissions"⟩, st)
  else
    match updateProduct st id patch now with
    | (none, st2) => (⟨404, "Product not found"⟩, st2)
    | (some _, st2) => (⟨200, ""⟩, st2)

/-- `POST /api/customers` after authentication. -/
def customersPost (st : Store) (user : UserWithRole) (body : InsertCustomer)
    (freshId now : String) : HResp × Store :=
  if ¬ requirePermissionOk user.permissions "customers" PermAction.create then
    (⟨403, "Insufficient permissions"⟩, st)
  else
    let r := createCustomer st freshId now { body with companyId := user.base.companyId }
    (⟨201, ""⟩, r.2)

/-- `POST /api/invoices` after authentication: permission gate, overwrite
the invoice's `companyId` with the caller's, persist invoice and items
verbatim. The items array may be empty — `z.array(...)` has no `.min(1)`
here — and no totals are recomputed or checked. -/
def invoicesPost (st : Store) (user : UserWithRole) (body : InsertInvoice)
    (items : List InsertInvoiceItem) (freshId : String) (itemId : Nat → String)
    (now : String) : HResp × Store :=
  if ¬ requirePermissionOk user.permissions "invoices" PermAction.create then
    (⟨403, "Insufficient permissions"⟩, st)
  else
    let r := createInvoice st freshId itemId now
      { body with companyId := user.base.companyId } items
    (⟨201, ""⟩, r.2)

/-- `PUT /api/invoices/:id` after authentication: partial update by id; the
body's `items` key is stripped by the schema, so item rows never change. -/
def invoicesPut (st : Store) (user : UserWithRole) (id : String)
    (patch : InvoicePatch) (now : String) : HResp × Store :=
  if ¬ requirePermissionOk user.permissions "invoices" PermAction.update then
    (⟨403, "Insufficient permissions"⟩, st)
  else
    match updateInvoice st id patch now with
    | (none, st2) => (⟨404, "Invoice not found"⟩, st2)
    | (some _, st2) => (⟨200, ""⟩, st2)

/-- `POST /api/users` after authentication: permission gate, then
`requireCompanyScope` (which for this route sees only `req.body.companyId`),
then hash the password and — for non-Super-Admin callers — overwrite
`companyId` with the caller's before persisting. -/
def usersPost (st : Store) (user : UserWithRole) (body : InsertUser)
    (hash : String → String) (freshId now : String) : HResp × Store :=
  if ¬ requirePermissionOk user.permissions "users" PermAction.create then
    (⟨403, "Insufficient permissions"⟩, st)
  else if ¬ requireCompanyScopeOk user none (some body.companyId) none then
    (⟨403, "Access denied to company data"⟩, st)
  else
    let body2 := { body with password := hash body.password }
    let body3 :=
      if user.role.name ≠ "Super Admin" then
        { body2 with companyId := user.base.companyId }
      else body2
    let r := createUser st freshId now body3
    (⟨201, ""⟩, r.2)

/-- Full `GET /api/products` route: authMiddleware then the handler. -/
def productsGetRoute (st : Store) (tok : Option Token) : HResp × List Product :=
  match authMiddleware st tok with
  | .error e => (⟨e.1, e.2⟩, [])
  | .ok user => productsGet st user

/-- Full `PUT /api/products/:id` route: authMiddleware then the handler. -/
def productsPutRoute (st : Store) (tok : Option Token) (id : String)
    (patch : ProductPatch) (now : String) : HResp × Store :=
  match authMiddleware st tok with
  | .error e => (⟨e.1, e.2⟩, st)
  | .ok user => productsPut st user id patch now

/-- Full `POST /api/invoices` route: authMiddleware then the handler. -/
def invoicesPostRoute (st : Store) (tok : Option Token) (body : InsertInvoice)
    (items : List InsertInvoiceItem) (freshId : String) (itemId : Nat → String)
    (now : String) : HResp × Store :=
  match authMiddleware st tok with
  | .error e => (⟨e.1, e.2⟩, st)
  | .ok user => invoicesPost st user body items freshId itemId now

/-- Sum of the `total` fields of the item rows attached to an invoice. -/
def itemsTotalSum (st : Store) (invoiceId : String) : ℚ :=
  (st.invoiceItems.filter (fun it => it.invoiceId = invoiceId)).foldl
    (fun s it => s + it.total) 0

/-- Values of one line of the client create/edit invoice form
(`invoiceItemSchema` in the create-invoice modal: `insertInvoiceItemSchema`
without `invoiceId`, with refinements on the other fields). -/
structure ItemFormValues where
  productId : String
  description : String
  quantity : ℚ
  unitPrice : ℚ
  total : ℚ
deriving DecidableEq, Repr

/-- The client form line validation: productId and description nonempty
(`min(1)` on strings), `quantity` a number `≥ 1`, `unitPrice` a number
`≥ 0`. No integrality requirement and no constraint on `total`. -/
def itemFormOk (it : ItemFormValues) : Bool :=
  it.productId ≠ "" ∧ it.description ≠ "" ∧ 1 ≤ it.quantity ∧ 0 ≤ it.unitPrice

/-- Values of the client create-invoice form (`createInvoiceFormSchema`). -/
structure CreateInvoiceFormValues where
  customerId : String
  invoiceNumber : String
  date : String
  dueDate : String
  notes : Option String
  items : List ItemFormValues
deriving DecidableEq, Repr

/-- `createInvoiceFormSchema` validation: required strings nonempty and
`items` an array of valid lines with `.min(1, 'At least one item is
required')`. -/
def createInvoiceFormOk (f : CreateInvoiceFormValues) : Bool :=
  f.customerId ≠ "" ∧ f.invoiceNumber ≠ "" ∧ f.date ≠ "" ∧ f.dueDate ≠ "" ∧
  1 ≤ f.items.length ∧ f.items.all itemFormOk

/-- `updateItemTotal(index)` of the create/edit invoice modals: set the
form line's `total` to `quantity * unitPrice` at that index. -/
def updateItemTotal (items : List ItemFormValues) (index : Nat) :
    List ItemFormValues :=
  items.mapIdx (fun j it =>
    if j = index then { it with total := it.quantity * it.unitPrice } else it)

/-- The edit-invoice modal's displayed totals (lines 214-216):
`subtotal = Σ item.total`, `tax = subtotal * 0.08`,
`total = subtotal + tax`. Display only — none of this is submitted. -/
def editModalTotals (items : List ItemFormValues) : ℚ × ℚ × ℚ :=
  let subtotal := items.foldl (fun s it => s + it.total) 0
  let tax := subtotal * (8 / 100)
  (subtotal, tax, subtotal + tax)

/-- One row of the sales-by-customer report of
src/client/src/pages/customers.tsx. -/
structure SalesAgg where
  customerName : String
  invoiceCount : Nat
  totalRevenue : ℚ
  paidRevenue : ℚ
deriving DecidableEq, Repr

/-- The `salesByCustomer` reduce: group the filtered invoices by customer
name, counting invoices and summing `total` (and `total` of paid invoices
into `paidRevenue`). `getName` is `getCustomerName` applied to the
invoice's customerId. -/
def salesByCustomer (invs : List Invoice) (getName : String → String) :
    List SalesAgg :=
  invs.foldl (fun acc inv =>
    let nm := getName inv.customerId
    let bump := fun (a : SalesAgg) =>
      { a with
        invoiceCount := a.invoiceCount + 1
        totalRevenue := a.totalRevenue + inv.total
        paidRevenue :=
          if inv.status = InvStatus.paid then a.paidRevenue + inv.total
          else a.paidRevenue }
    match updateFirst (fun a => a.customerName = nm) bump acc with
    | (some _, acc2) => acc2
    | (none, _) => acc ++ [bump ⟨nm, 0, 0, 0⟩]) []

/-- The collection-rate cell (customers.tsx lines 726-733):
`totalRevenue > 0 ? paidRevenue / totalRevenue * 100 : 0`, as the numeric
value before `toFixed(1)` formatting. -/
def collectionRateCell (a : SalesAgg) : ℚ :=
  if 0 < a.totalRevenue then a.paidRevenue / a.totalRevenue * 100 else 0

/-! Concrete fixtures: a two-tenant store in the shape the seed data gives
(fixed roles, one permission row per (role, module)). -/

/-- The seeded "Company Admin" role. -/
def roleCompanyAdmin : Role := ⟨"role-2", "Company Admin", none⟩

/-- A seeded role that has no permission rows at all. -/
def roleBare : Role := ⟨"role-4", "User", none⟩

/-- Tenant A. -/
def companyA : Company :=
  ⟨"A", "Alpha Inc", "alpha", none, none, none, none, none, "t0", "t0", true⟩

/-- Tenant B. -/
def companyB : Company :=
  ⟨"B", "Beta LLC", "beta", none, none, none, none, none, "t0", "t0", true⟩

/-- Full products grant for the Company Admin role. -/
def permProductsAll : Permission :=
  ⟨"perm-1", "role-2", "products", true, true, true, true⟩

/-- Full invoices grant for the Company Admin role. -/
def permInvoicesAll : Permission :=
  ⟨"perm-2", "role-2", "invoices", true, true, true, true⟩

/-- Full customers grant for the Company Admin role. -/
def permCustomersAll : Permission :=
  ⟨"perm-3", "role-2", "customers", true, true, true, true⟩

/-- Full users grant for the Company Admin role. -/
def permUsersAll : Permission :=
  ⟨"perm-4", "role-2", "users", true, true, true, true⟩

/-- A Company Admin of tenant A. -/
def adminA : User :=
  ⟨"u1", "A", "role-2", "admin@alpha.test", "hash-pw-1", "Alice Admin", true,
   "t0", "t0"⟩

/-- The same user after deactivation. -/
def adminAInactive : User := { adminA with isActive := false }

/-- The same user after demotion to the bare role. -/
def adminADemoted : User := { adminA with roleId := "role-4" }

/-- A product that belongs to tenant B. -/
def productB : Product :=
  ⟨"p1", "B", "Widget", none, 10, none, none, 0, true, "t0", "t0"⟩

/-- A store with both tenants, the Company Admin of tenant A, and one
product owned by tenant B. -/
def storeCross : Store :=
  ⟨[companyA, companyB], [adminA], [roleCompanyAdmin, roleBare],
   [permProductsAll, permInvoicesAll, permCustomersAll, permUsersAll],
   [productB], [], [], []⟩

/-- The same store after the user was demoted to the bare role. -/
def storeDemoted : Store := { storeCross with users := [adminADemoted] }

/-- The same store with the user deactivated. -/
def storeInactive : Store := { storeCross with users := [adminAInactive] }

/-- A valid, unexpired token issued to the Company Admin of tenant A (its
payload carries the claims as of issuance time). -/
def tokenA : Token :=
  ⟨⟨"u1", "A", "role-2", "admin@alpha.test"⟩, true, false⟩

/-- A PUT body `{ name: "Hacked" }` for a product. -/
def namePatch : ProductPatch :=
  ⟨none, some "Hacked", none, none, none, none, none, none⟩

/-- An invoice body whose caller-supplied totals are mutually inconsistent:
subtotal 1, tax 0, total 100. -/
def bodyBadTotals : InsertInvoice :=
  ⟨"whatever", "c1", "INV-1", "2026-01-01", "2026-02-01", 1, 0, 100,
   InvStatus.pending, none⟩

/-- A single line item claiming total 5 (quantity 1 at unit price 5). -/
def itemFive : InsertInvoiceItem := ⟨"ignored", "p1", "Widget", 1, 5, 5⟩

/-- A line item with negative quantity and unit price and a `total` that is
not `quantity * unitPrice`. -/
def itemBogus : InsertInvoiceItem := ⟨"ignored", "p1", "Bogus", -3, -5, 999⟩

/-- Fresh item ids for `createInvoice`. -/
def itemIdGen (i : Nat) : String := "item-" ++ toString i

/-- Password check used in login witnesses: the stored credential is the
hash image of the correct password under `demoHash`. -/
def demoHash (pw : String) : String := "hash-" ++ pw

/-- bcrypt comparison modelled for the demo hash. -/
def demoCompare (pw hash : String) : Bool := demoHash pw = hash

/-- The Company Admin of tenant A as the auth middleware attaches it to a
request against storeCross. -/
def adminAWithRole : UserWithRole :=
  ⟨adminA, roleCompanyAdmin, companyA,
   [permProductsAll, permInvoicesAll, permCustomersAll, permUsersAll]⟩

/-- A paid invoice of customer c1 with total 108. -/
def invPaid : Invoice :=
  ⟨"i1", "A", "c1", "INV-7", "2026-01-01", "2026-02-01", 100, 8, 108,
   InvStatus.paid, none, "t0", "t0"⟩

/-- A pending invoice of customer c2 with total 0. -/
def invZero : Invoice :=
  ⟨"i2", "A", "c2", "INV-8", "2026-01-01", "2026-02-01", 0, 0, 0,
   InvStatus.pending, none, "t0", "t0"⟩

/-- A product body claiming to belong to tenant B. -/
def bodyProductForB : InsertProduct :=
  ⟨"B", "Sneaky", none, 1, none, none, 0, true⟩

/-- A customer body claiming to belong to tenant B. -/
def bodyCustomerForB : InsertCustomer :=
  ⟨"B", "Carl Customer", "carl@beta.test", none, none, none, true⟩

/-- A user body with an empty (falsy) companyId. -/
def bodyUserBlank : InsertUser :=
  ⟨"", "role-2", "new@alpha.test", "pw-2", "Newbie", true⟩

/-- The cross-tenant store after the user row was deleted. -/
def storeNoUser : Store := { storeCross with users := [] }

/-- A create-invoice form submission with zero line items. -/
def emptyItemsForm : CreateInvoiceFormValues :=
  ⟨"c1", "INV-1", "2026-01-01", "2026-02-01", none, []⟩

/-- A form line with the non-integral quantity 5/2. -/
def halfQuantityItem : ItemFormValues := ⟨"p1", "Half unit", 5 / 2, 4, 10⟩

/-! Theorems. -/

/-- When `getUserWithRole` succeeds, the request user carries exactly the
permission rows of the store filtered by the user roleId. -/
theorem getUserWithRole_permissions (st : Store) (uid : String) (u : UserWithRole)
    (h : getUserWithRole st uid = some u) :
    u.permissions = st.permissions.filter (fun p => p.roleId = u.base.roleId) := by
  unfold getUserWithRole at h
  split at h
  · cases h
  · split at h
    · injection h with h2
      subst h2
      rfl
    · cases h

/-- C1: the claim says a cross-tenant by-id request must yield 403. The
code has no scope middleware on the product routes: a Company Admin of
tenant A, holding only a products grant, PUTs the tenant-B product and the
server answers 200 and persists the change. -/
theorem C1_cross_tenant_put_succeeds :
    (productsPutRoute storeCross (some tokenA) "p1" namePatch "t1").1 = ⟨200, ""⟩ ∧
    ((productsPutRoute storeCross (some tokenA) "p1" namePatch "t1").2.products.find?
        (fun p => p.id = "p1")).map (fun p => (p.name, p.companyId)) =
      some ("Hacked", "B") ∧
    adminA.companyId = "A" ∧ productB.companyId = "B" ∧
    roleCompanyAdmin.name ≠ "Super Admin" := by
  decide

/-- C2: the claim says stored invoices satisfy subtotal = sum of item
totals, tax = subtotal * 0.08 and total = subtotal + tax (within 1e-9),
computed at creation/update time. The creation handler persists the
caller-supplied numbers verbatim: an authenticated create with subtotal 1,
tax 0, total 100 and a single item of total 5 is stored unchanged, and
every one of the three relations fails by far more than 1e-9. -/
theorem C2_totals_not_computed :
    (invoicesPostRoute storeCross (some tokenA) bodyBadTotals [itemFive]
        "inv-1" itemIdGen "t1").1 = ⟨201, ""⟩ ∧
    ((invoicesPostRoute storeCross (some tokenA) bodyBadTotals [itemFive]
        "inv-1" itemIdGen "t1").2.invoices.find? (fun i => i.id = "inv-1")).map
        (fun i => (i.subtotal, i.tax, i.total)) = some (1, 0, 100) ∧
    itemsTotalSum (invoicesPostRoute storeCross (some tokenA) bodyBadTotals
        [itemFive] "inv-1" itemIdGen "t1").2 "inv-1" = 5 ∧
    ¬ (|(1 : ℚ) - 5| ≤ 1 / 1000000000) ∧
    ¬ (|(0 : ℚ) - (8 / 100) * 1| ≤ 1 / 1000000000) ∧
    ¬ (|(100 : ℚ) - (1 + 0)| ≤ 1 / 1000000000) := by
  refine ⟨by decide, by decide, ?_,
    by intro h; rw [abs_le] at h; norm_num at h,
    by intro h; rw [abs_le] at h; norm_num at h,
    by intro h; rw [abs_le] at h; norm_num at h⟩
  have h : (invoicesPostRoute storeCross (some tokenA) bodyBadTotals
      [itemFive] "inv-1" itemIdGen "t1").2.invoiceItems.filter
      (fun it => it.invoiceId = "inv-1") =
      [⟨"item-0", "inv-1", "p1", "Widget", 1, 5, 5⟩] := by decide
  unfold itemsTotalSum
  rw [h]
  norm_num

/-- C3: the claim says an invoice-creation request with an empty item list
fails and persists nothing. The server route has no such check: the
authenticated request with items = [] is answered 201 and the invoice row
is persisted with zero item rows. -/
theorem C3_empty_items_accepted :
    (invoicesPostRoute storeCross (some tokenA) bodyBadTotals []
        "inv-2" itemIdGen "t1").1 = ⟨201, ""⟩ ∧
    ((invoicesPostRoute storeCross (some tokenA) bodyBadTotals []
        "inv-2" itemIdGen "t1").2.invoices.find? (fun i => i.id = "inv-2")).isSome
      = true ∧
    (invoicesPostRoute storeCross (some tokenA) bodyBadTotals []
        "inv-2" itemIdGen "t1").2.invoiceItems.filter
        (fun it => it.invoiceId = "inv-2") = [] := by
  decide

/-- C4: the claim says an accepted line always has total = quantity *
unitPrice and that non-positive-integer quantities or negative unit prices
are rejected. The server stores a line with quantity -3, unitPrice -5 and
total 999 verbatim under a 201 response. -/
theorem C4_bogus_item_stored :
    (invoicesPostRoute storeCross (some tokenA) bodyBadTotals [itemBogus]
        "inv-3" itemIdGen "t1").1 = ⟨201, ""⟩ ∧
    (invoicesPostRoute storeCross (some tokenA) bodyBadTotals [itemBogus]
        "inv-3" itemIdGen "t1").2.invoiceItems.filter
        (fun it => it.invoiceId = "inv-3") =
      [⟨"item-0", "inv-3", "p1", "Bogus", -3, -5, 999⟩] ∧
    itemBogus.unitPrice < 0 ∧
    itemBogus.total ≠ itemBogus.quantity * itemBogus.unitPrice := by
  refine ⟨by decide, by decide, by decide, ?_⟩
  show (999 : ℚ) ≠ (-3) * (-5)
  norm_num

/-- C5: the claim says a user changed after token issuance is still treated
according to the claims as of issuance time. After a demotion to a role
with no permission rows, a products request with the old (still valid)
token is denied 403 — yet the issuance-time role still holds the read
grant, so the request is governed by the current store, not the token
claims. -/
theorem C5_demotion_takes_effect :
    (productsGetRoute storeDemoted (some tokenA)).1 =
      ⟨403, "Insufficient permissions"⟩ ∧
    requirePermissionOk
      (storeDemoted.permissions.filter
        (fun p => p.roleId = tokenA.payload.roleId))
      "products" PermAction.read = true := by
  decide

/-- C3 amended: the zero-item check exists only client-side. The client
create-invoice form schema rejects an empty item list (array min 1), but
the server handler accepts an empty items array from any caller with the
invoices create grant, answering 201, persisting the invoice row and
writing no item rows. There is no EmptyInvoice error anywhere. -/
theorem C3_client_rejects_server_accepts :
    (∀ f : CreateInvoiceFormValues, f.items = [] →
      createInvoiceFormOk f = false) ∧
    (∀ (st : Store) (user : UserWithRole) (body : InsertInvoice)
        (fid now : String) (idg : Nat → String),
      requirePermissionOk user.permissions "invoices" PermAction.create = true →
      (invoicesPost st user body [] fid idg now).1 = ⟨201, ""⟩ ∧
      (invoicesPost st user body [] fid idg now).2.invoiceItems =
        st.invoiceItems ∧
      (invoicesPost st user body [] fid idg now).2.invoices.length =
        st.invoices.length + 1) := by
  constructor
  · intro f hf
    simp [createInvoiceFormOk, hf]
  · intro st user body fid now idg hperm
    refine ⟨?_, ?_, ?_⟩ <;> simp [invoicesPost, hperm, createInvoice]

/-- Witness for C3: the concrete empty-items form fails client validation,
while the server route persists the same submission with status 201. -/
theorem C3_client_rejects_server_accepts_witness :
    createInvoiceFormOk emptyItemsForm = false ∧
    (invoicesPost storeCross adminAWithRole bodyBadTotals [] "inv-w3"
        itemIdGen "t1").1 = ⟨201, ""⟩ :=
  ⟨C3_client_rejects_server_accepts.1 emptyItemsForm rfl,
   (C3_client_rejects_server_accepts.2 storeCross adminAWithRole bodyBadTotals
      "inv-w3" "t1" itemIdGen (by decide)).1⟩

/-- C4 amended: the client form validation rejects a line with quantity
below 1 or negative unitPrice (via form messages, not an InvalidLineItem
error), and the form state helper sets a line total to quantity times
unitPrice; but the form accepts non-integral quantities such as 5/2, and
the server imposes no line constraints at all (see the stored bogus
line). -/
theorem C4_client_form_validation :
    (∀ it : ItemFormValues, it.quantity < 1 ∨ it.unitPrice < 0 →
      itemFormOk it = false) ∧
    (∀ (items : List ItemFormValues) (i : Nat),
      (updateItemTotal items i).get? i =
        (items.get? i).map
          (fun it => { it with total := it.quantity * it.unitPrice })) ∧
    itemFormOk halfQuantityItem = true ∧
    ¬ (∃ n : ℕ, halfQuantityItem.quantity = (n : ℚ)) := by
  refine ⟨?_, ?_, ?_, ?_⟩
  · intro it h
    simp only [itemFormOk, decide_eq_false_iff_not]
    rintro ⟨-, -, h1, h2⟩
    rcases h with h | h
    · exact absurd h1 (not_le.mpr h)
    · exact absurd h2 (not_le.mpr h)
  · intro items i
    rw [updateItemTotal, List.mapIdx_eq_enum_map]
    rw [List.get?_eq_getElem?, List.getElem?_map, ← List.get?_eq_getElem?,
      List.get?_enum]
    cases h : items.get? i with
    | none => simp
    | some it => simp [Function.uncurry]
  · simp only [itemFormOk, halfQuantityItem, decide_eq_true_eq]
    refine ⟨by decide, by decide, by norm_num, by norm_num⟩
  · rintro ⟨n, hn⟩
    simp only [halfQuantityItem] at hn
    have h5 : (5 : ℚ) = 2 * n := by
      field_simp at hn
      linarith
    have h6 : (5 : ℕ) = 2 * n := by exact_mod_cast h5
    omega

/-- Witness for C4: a line with negative unitPrice fails the client form
validation, and the form total helper writes quantity times unitPrice. -/
theorem C4_client_form_validation_witness :
    itemFormOk ⟨"p1", "Neg", 1, -2, 0⟩ = false ∧
    (updateItemTotal [⟨"p1", "Two", 2, 3, 0⟩] 0).get? 0 =
      some ⟨"p1", "Two", 2, 3, 2 * 3⟩ := by
  constructor
  · exact C4_client_form_validation.1 _ (Or.inr (by norm_num))
  · rw [C4_client_form_validation.2.1]
    rfl

/-- C5 amended: token verification itself checks only signature and expiry,
but the auth middleware then reloads the user from the current store: a
request user carries the store-current role and permission rows (so
demotion takes effect immediately), a deleted user is rejected 401, and
only the isActive flag is not rechecked (the success case below has no
isActive hypothesis, so a deactivated but undeleted user is still served
until expiry). -/
theorem C5_middleware_reloads_user :
    (∀ t : Token, (verifyToken t).isSome ↔ (t.sigOk = true ∧ t.expired = false)) ∧
    (∀ (st : Store) (t : Token) (p : JWTPayload) (u : UserWithRole),
      verifyToken t = some p → getUserWithRole st p.userId = some u →
      authMiddleware st (some t) = .ok u) ∧
    (∀ (st : Store) (t : Token) (p : JWTPayload),
      verifyToken t = some p → getUserWithRole st p.userId = none →
      authMiddleware st (some t) = .error (401, "User not found")) := by
  refine ⟨?_, ?_, ?_⟩
  · intro t
    unfold verifyToken
    constructor
    · intro h
      by_cases h1 : t.sigOk ∧ ¬ t.expired
      · exact ⟨h1.1, by simpa using h1.2⟩
      · rw [if_neg h1] at h
        simp at h
    · rintro ⟨h1, h2⟩
      rw [if_pos ⟨h1, by simp [h2]⟩]
      simp
  · intro st t p u h1 h2
    simp [authMiddleware, h1, h2]
  · intro st t p h1 h2
    simp [authMiddleware, h1, h2]

/-- Witness for C5 amended: the valid token passes verification; against the
store with the user deactivated the middleware still attaches the current
user row (isActive false); against the store with the user deleted it
answers 401 User not found. -/
theorem C5_middleware_reloads_user_witness :
    (verifyToken tokenA).isSome ∧
    authMiddleware storeInactive (some tokenA) =
      .ok ⟨adminAInactive, roleCompanyAdmin, companyA,
           [permProductsAll, permInvoicesAll, permCustomersAll, permUsersAll]⟩ ∧
    adminAInactive.isActive = false ∧
    authMiddleware storeNoUser (some tokenA) =
      .error (401, "User not found") := by
  refine ⟨?_, ?_, rfl, ?_⟩
  · exact (C5_middleware_reloads_user.1 tokenA).mpr ⟨rfl, rfl⟩
  · exact C5_middleware_reloads_user.2.1 storeInactive tokenA tokenA.payload _
      rfl (by decide)
  · exact C5_middleware_reloads_user.2.2 storeNoUser tokenA tokenA.payload
      rfl (by decide)

/-- C6: default-deny authorization. For a request user loaded by the auth
middleware, when the store holds exactly one permission row for the pair
(user roleId, module), the permission middleware returns that row's action
flag; when it holds none, the check is false (403) — in particular every
action on a module with no row for the role is denied. -/
theorem C6_default_deny :
    ∀ (st : Store) (uid : String) (u : UserWithRole) (m : String)
      (a : PermAction),
      getUserWithRole st uid = some u →
      ((∀ p, p ∈ st.permissions → p.roleId = u.base.roleId → p.module = m →
        (∀ q, q ∈ st.permissions → q.roleId = u.base.roleId → q.module = m →
          q = p) →
        requirePermissionOk u.permissions m a = permFlag p a) ∧
       ((∀ p, p ∈ st.permissions → ¬ (p.roleId = u.base.roleId ∧ p.module = m)) →
        requirePermissionOk u.permissions m a = false)) := by
  intro st uid u m a h
  have hperm := getUserWithRole_permissions st uid u h
  constructor
  · intro p hp hrole hmod huniq
    have hpf : p ∈ u.permissions := by
      rw [hperm, List.mem_filter]
      exact ⟨hp, by simp [hrole]⟩
    unfold requirePermissionOk
    cases hfind : u.permissions.find? (fun q => q.module = m) with
    | none =>
      exact absurd (List.find?_eq_none.mp hfind p hpf) (by simp [hmod])
    | some q =>
      have hqmem : q ∈ u.permissions := List.mem_of_find?_eq_some hfind
      have hqmod : q.module = m := by
        have := List.find?_some hfind
        simpa using this
      have hqst : q ∈ st.permissions ∧ q.roleId = u.base.roleId := by
        rw [hperm, List.mem_filter] at hqmem
        exact ⟨hqmem.1, by simpa using hqmem.2⟩
      rw [huniq q hqst.1 hqst.2 hqmod]
  · intro hnone
    unfold requirePermissionOk
    have hfind : u.permissions.find? (fun q => q.module = m) = none := by
      rw [List.find?_eq_none]
      intro x hx
      rw [hperm, List.mem_filter] at hx
      have := hnone x hx.1
      simp only [decide_eq_true_eq]
      intro hxm
      exact this ⟨by simpa using hx.2, hxm⟩
    rw [hfind]

/-- Witness for C6: against the store where the user role has no permission
rows, reading products is denied; against the full store, the products
update decision equals the flag of the unique products row. -/
theorem C6_default_deny_witness :
    requirePermissionOk
      (⟨adminADemoted, roleBare, companyA, []⟩ : UserWithRole).permissions
      "products" PermAction.read = false ∧
    requirePermissionOk adminAWithRole.permissions "products"
      PermAction.update = permFlag permProductsAll PermAction.update := by
  constructor
  · exact (C6_default_deny storeDemoted "u1" _ "products" PermAction.read
      (by decide)).2 (by decide)
  · exact (C6_default_deny storeCross "u1" adminAWithRole "products"
      PermAction.update (by decide)).1 permProductsAll (by decide) rfl rfl
      (by decide)

/-- C7: a login for an email with no user and a login for an existing user
with a failing password comparison produce the same response — status 401
with message Invalid credentials — so the two cases are externally
indistinguishable. -/
theorem C7_login_indistinguishable :
    ∀ (st : Store) (cmp : String → String → Bool) (e1 p1 e2 p2 : String)
      (u : UserWithRole),
      getUserByEmailWithRole st e1 = none →
      getUserByEmailWithRole st e2 = some u →
      cmp p2 u.base.password = false →
      loginHandler st cmp e1 p1 = .err 401 "Invalid credentials" ∧
      loginHandler st cmp e2 p2 = .err 401 "Invalid credentials" ∧
      loginHandler st cmp e1 p1 = loginHandler st cmp e2 p2 := by
  intro st cmp e1 p1 e2 p2 u h1 h2 h3
  refine ⟨?_, ?_, ?_⟩ <;> simp [loginHandler, h1, h2, h3]

/-- Witness for C7: unknown email and wrong password against the concrete
store yield the identical response. -/
theorem C7_login_indistinguishable_witness :
    loginHandler storeCross demoCompare "ghost@nowhere.test" "pw-1" =
      .err 401 "Invalid credentials" ∧
    loginHandler storeCross demoCompare "admin@alpha.test" "wrong" =
      .err 401 "Invalid credentials" := by
  have h := C7_login_indistinguishable storeCross demoCompare
    "ghost@nowhere.test" "pw-1" "admin@alpha.test" "wrong" adminAWithRole
    (by decide) (by decide) (by decide)
  exact ⟨h.1, h.2.1⟩

/-- C8: correct credentials for a deactivated user produce status 401 with
message Account is inactive — a response distinct from the Invalid
credentials one — and no token is issued (the response is never the ok
constructor that carries a token). -/
theorem C8_inactive_distinct :
    ∀ (st : Store) (cmp : String → String → Bool) (e p : String)
      (u : UserWithRole),
      getUserByEmailWithRole st e = some u →
      cmp p u.base.password = true →
      u.base.isActive = false →
      loginHandler st cmp e p = .err 401 "Account is inactive" ∧
      loginHandler st cmp e p ≠ .err 401 "Invalid credentials" ∧
      ∀ (t : JWTPayload) (v : UserWithRole), loginHandler st cmp e p ≠ .ok t v := by
  intro st cmp e p u h1 h2 h3
  refine ⟨?_, ?_, ?_⟩
  · simp [loginHandler, h1, h2, h3]
  · simp [loginHandler, h1, h2, h3]
  · intro t v
    simp [loginHandler, h1, h2, h3]

/-- Witness for C8: the deactivated admin with the correct password gets
the Account is inactive response, distinct from Invalid credentials. -/
theorem C8_inactive_distinct_witness :
    loginHandler storeInactive demoCompare "admin@alpha.test" "pw-1" =
      .err 401 "Account is inactive" ∧
    loginHandler storeInactive demoCompare "admin@alpha.test" "pw-1" ≠
      .err 401 "Invalid credentials" := by
  have h := C8_inactive_distinct storeInactive demoCompare "admin@alpha.test"
    "pw-1"
    ⟨adminAInactive, roleCompanyAdmin, companyA,
     [permProductsAll, permInvoicesAll, permCustomersAll, permUsersAll]⟩
    (by decide) (by decide) rfl
  exact ⟨h.1, h.2.1⟩

/-- C9: for every per-customer aggregate produced by the sales-report
grouping, the rendered collection rate is paidRevenue / totalRevenue * 100
when totalRevenue is positive and 0 when totalRevenue is zero (the guard
branch, so no division by zero is ever rendered). -/
theorem C9_collection_rate_guard :
    ∀ (invs : List Invoice) (getName : String → String) (a : SalesAgg),
      a ∈ salesByCustomer invs getName →
      (0 < a.totalRevenue →
        collectionRateCell a = a.paidRevenue / a.totalRevenue * 100) ∧
      (a.totalRevenue = 0 → collectionRateCell a = 0) := by
  intro invs getName a _
  constructor
  · intro h
    unfold collectionRateCell
    rw [if_pos h]
  · intro h
    simp [collectionRateCell, h]

/-- Witness for C9: in the concrete two-invoice report, the paid customer
renders 108/108*100 and the zero-revenue customer renders 0. -/
theorem C9_collection_rate_guard_witness :
    collectionRateCell ⟨"c1", 1, 108, 108⟩ = 108 / 108 * 100 ∧
    collectionRateCell ⟨"c2", 1, 0, 0⟩ = 0 := by
  have hs : salesByCustomer [invPaid, invZero] (fun c => c) =
      [⟨"c1", 1, 0 + 108, 0 + 108⟩, ⟨"c2", 1, 0 + 0, 0⟩] := rfl
  have hmem1 : (⟨"c1", 1, 108, 108⟩ : SalesAgg) ∈
      salesByCustomer [invPaid, invZero] (fun c => c) := by
    rw [hs]
    norm_num [SalesAgg.mk.injEq]
  have hmem2 : (⟨"c2", 1, 0, 0⟩ : SalesAgg) ∈
      salesByCustomer [invPaid, invZero] (fun c => c) := by
    rw [hs]
    norm_num [SalesAgg.mk.injEq]
  exact ⟨(C9_collection_rate_guard _ _ _ hmem1).1 (by norm_num),
         (C9_collection_rate_guard _ _ _ hmem2).2 rfl⟩

/-- C10: every successful create stores the caller's companyId: the
product, customer and invoice create handlers overwrite the body's
companyId with the authenticated user's before persisting, and the user
create handler does the same whenever the caller is not a Super Admin. -/
theorem C10_company_id_override :
    ∀ (st : Store) (user : UserWithRole) (pb : InsertProduct)
      (cb : InsertCustomer) (ib : InsertInvoice)
      (items : List InsertInvoiceItem) (ub : InsertUser)
      (hash : String → String) (fid now : String) (idg : Nat → String),
      ((productsPost st user pb fid now).1.status = 201 →
        ((productsPost st user pb fid now).2.products.getLast?).map
          (fun p => p.companyId) = some user.base.companyId) ∧
      ((customersPost st user cb fid now).1.status = 201 →
        ((customersPost st user cb fid now).2.customers.getLast?).map
          (fun c => c.companyId) = some user.base.companyId) ∧
      ((invoicesPost st user ib items fid idg now).1.status = 201 →
        ((invoicesPost st user ib items fid idg now).2.invoices.getLast?).map
          (fun i => i.companyId) = some user.base.companyId) ∧
      (user.role.name ≠ "Super Admin" →
        (usersPost st user ub hash fid now).1.status = 201 →
        ((usersPost st user ub hash fid now).2.users.getLast?).map
          (fun x => x.companyId) = some user.base.companyId) := by
  intro st user pb cb ib items ub hash fid now idg
  refine ⟨?_, ?_, ?_, ?_⟩
  · intro h
    by_cases hp : requirePermissionOk user.permissions "products" PermAction.create
    · simp [productsPost, hp, createProduct]
    · simp [productsPost, hp] at h
  · intro h
    by_cases hp : requirePermissionOk user.permissions "customers" PermAction.create
    · simp [customersPost, hp, createCustomer]
    · simp [customersPost, hp] at h
  · intro h
    by_cases hp : requirePermissionOk user.permissions "invoices" PermAction.create
    · simp [invoicesPost, hp, createInvoice]
    · simp [invoicesPost, hp] at h
  · intro hsa h
    by_cases hp : requirePermissionOk user.permissions "users" PermAction.create
    · by_cases hs : requireCompanyScopeOk user none (some ub.companyId) none
      · simp [usersPost, hp, hs, hsa, createUser]
      · simp [usersPost, hp, hs] at h
    · simp [usersPost, hp] at h

/-- Witness for C10: against the concrete store, each create handler stores
companyId A (the caller's tenant) even though the product and customer
bodies claimed tenant B. -/
theorem C10_company_id_override_witness :
    ((productsPost storeCross adminAWithRole bodyProductForB "x9"
        "t1").2.products.getLast?).map (fun p => p.companyId) = some "A" ∧
    ((customersPost storeCross adminAWithRole bodyCustomerForB "x9"
        "t1").2.customers.getLast?).map (fun c => c.companyId) = some "A" ∧
    ((invoicesPost storeCross adminAWithRole bodyBadTotals [] "x9" itemIdGen
        "t1").2.invoices.getLast?).map (fun i => i.companyId) = some "A" ∧
    ((usersPost storeCross adminAWithRole bodyUserBlank demoHash "x9"
        "t1").2.users.getLast?).map (fun x => x.companyId) = some "A" := by
  have h := C10_company_id_override storeCross adminAWithRole bodyProductForB
    bodyCustomerForB bodyBadTotals [] bodyUserBlank demoHash "x9" "t1" itemIdGen
  exact ⟨h.1 (by decide), h.2.1 (by decide), h.2.2.1 (by decide),
         h.2.2.2 (by decide) (by decide)⟩

end MBF
